import Mathlib

/-!
Shallow embedding of the `when-otherwise` comparison-chain library
(`src/comparison.ts`, `src/index.ts`).

Modelling choices:

* JavaScript runtime values are modelled by `JSVal`.  Numbers are `Int`
  (the concrete values exercised by the claims are small integers; no
  claim depends on float behaviour).  A settled promise is modelled
  structurally by `JSVal.prom v` where `v` is the value it resolves to;
  strict/loose equality between two promise objects is approximated
  structurally (no claim compares promise objects).
* A "value or callable" slot (`ComparisonValue`, `ComparisonResult`,
  `ComparableType`, and the `value` / `fallback` fields, all of which are
  `... | undefined` at runtime) is modelled by `FnVal`; the JavaScript
  `undefined` is `FnVal.val JSVal.undefined`, so "unset field" and "field
  holding undefined" coincide exactly as they do in JavaScript.
* The class is stateful; methods are modelled by explicit state passing:
  each fluent method returns the updated `Comparison`, and the resolving
  methods return the updated state together with an `Except` capturing
  `throw new Error(msg)` as `.error msg` (on the async path a rejected
  promise) and a normal return as `.ok v` (on the async path the value
  the returned promise settles to).
-/

namespace WhenOtherwise

/-- A JavaScript runtime value, restricted to the primitive types the
library manipulates, plus settled promises. -/
inductive JSVal where
  | num : Int → JSVal
  | str : String → JSVal
  | boo : Bool → JSVal
  | null : JSVal
  | undefined : JSVal
  | prom : JSVal → JSVal
deriving DecidableEq, Repr

/-- JavaScript `typeof`-style type tag (promises are objects). -/
def jsType : JSVal → String
  | .num _ => "number"
  | .str _ => "string"
  | .boo _ => "boolean"
  | .null => "object"
  | .undefined => "undefined"
  | .prom _ => "object"

/-- JavaScript truthiness of a value (`if (v)`).  A promise is an object
and objects are truthy. -/
def truthy : JSVal → Bool
  | .num n => n != 0
  | .str s => s != ""
  | .boo b => b
  | .null => false
  | .undefined => false
  | .prom _ => true

/-- Value of a decimal digit character (code points 48 through 57). -/
def digitVal (c : Char) : Option Nat :=
  if 48 ≤ c.toNat && c.toNat ≤ 57 then some (c.toNat - 48) else none

/-- Value of a digit sequence; `none` when a non-digit occurs. -/
def digitsVal : List Char → Nat → Option Nat
  | [], acc => some acc
  | c :: cs, acc =>
      match digitVal c with
      | some d => digitsVal cs (acc * 10 + d)
      | none => none

/-- JavaScript `ToNumber` on strings, restricted to the optionally signed
decimal integer literals the claims exercise (the empty string is `0`);
`none` stands for NaN. -/
def strToNum (s : String) : Option Int :=
  match s.data with
  | [] => some 0
  | '-' :: cs =>
      if cs.isEmpty then none
      else (digitsVal cs 0).map (fun n => -(n : Int))
  | '+' :: cs =>
      if cs.isEmpty then none
      else (digitsVal cs 0).map (fun n => (n : Int))
  | cs => (digitsVal cs 0).map (fun n => (n : Int))

/-- `ToNumber` of a boolean. -/
def boolToNum (b : Bool) : Int := if b then 1 else 0

/-- Whether a number loosely equals a string (`a == s` after coercing the
string with `ToNumber`; NaN compares unequal to everything). -/
def numEqStr (a : Int) (s : String) : Bool :=
  match strToNum s with
  | some b => a == b
  | none => false

/-- JavaScript strict equality `===` on the modelled values: equal only
within one runtime type, never coercing.  Promise objects are compared
structurally (approximating object identity; never exercised by claims). -/
def strictEq : JSVal → JSVal → Bool
  | .num a, .num b => a == b
  | .str a, .str b => a == b
  | .boo a, .boo b => a == b
  | .null, .null => true
  | .undefined, .undefined => true
  | .prom a, .prom b => a == b
  | _, _ => false

/-- JavaScript loose equality `==` on the modelled values, following the
abstract equality comparison: same-type comparisons are strict,
`null == undefined`, numbers and strings compare after `ToNumber` of the
string, and booleans are first coerced with `ToNumber`.  Object-to-primitive
coercion of promises is not modelled (no claim exercises it). -/
def looseEq : JSVal → JSVal → Bool
  | .num a, .num b => a == b
  | .str a, .str b => a == b
  | .boo a, .boo b => a == b
  | .null, .null => true
  | .undefined, .undefined => true
  | .null, .undefined => true
  | .undefined, .null => true
  | .num a, .str s => numEqStr a s
  | .str s, .num a => numEqStr a s
  | .boo a, .num b => boolToNum a == b
  | .num a, .boo b => a == boolToNum b
  | .boo a, .str s => numEqStr (boolToNum a) s
  | .str s, .boo b => numEqStr (boolToNum b) s
  | .prom a, .prom b => a == b
  | _, _ => false

/-- A runtime "value or callable" slot.  `FnVal.val JSVal.undefined` is the
JavaScript `undefined`, which is also how an unset `value` / `fallback`
field reads.  Async callables are `.fn` returning a `.prom`; a literal
promise is `.val (.prom _)`. -/
inductive FnVal where
  | val : JSVal → FnVal
  | fn : (JSVal → JSVal) → FnVal

/-- `this.x === undefined` for a slot holding a value-or-callable. -/
def FnVal.isUndef : FnVal → Bool
  | .val .undefined => true
  | _ => false

/-- `toCallable`: `typeof value === "function"` returns it unchanged,
anything else is wrapped in a constant function ignoring its input. -/
def FnVal.toCallable : FnVal → JSVal → JSVal
  | .val v => fun _ => v
  | .fn f => f

/-- `valueFromPromise`: `value instanceof Promise ? await value : value`.
`await` yields the settled value (JavaScript promises never nest, so the
flattening recursion is the identity beyond one step on faithful inputs). -/
def valueFromPromise : JSVal → JSVal
  | .prom v => valueFromPromise v
  | v => v

/-- One registered test: the `ComparisonTest` interface.  `passes` returns
`boolean | Promise<boolean>` (any `JSVal` at runtime), `result` returns
`ResultType | Promise<ResultType>`. -/
structure CompTest where
  passes : JSVal → JSVal
  result : JSVal → JSVal

/-- The `Comparison` class state: `tests`, `value` (subject slot, unset =
`undefined`), `fallback` (unset = `undefined`), `hasPromises`. -/
structure Comparison where
  tests : List CompTest
  value : FnVal
  fallback : FnVal
  hasPromises : Bool

/-- The protected constructor: fields initialise to `[]` / `undefined` /
`undefined` / `false`, then `if (value !== undefined) this.value = value`,
whose net effect is storing the argument (assigning `undefined` over the
initial `undefined` changes nothing). -/
def Comparison.create (value : FnVal) : Comparison :=
  { tests := [], value := value, fallback := .val .undefined, hasPromises := false }

/-- `static when(value)`. -/
def Comparison.when (value : FnVal) : Comparison :=
  Comparison.create value

/-- `static whenSomething()`: the constructor argument is omitted, i.e.
`undefined`. -/
def Comparison.whenSomething : Comparison :=
  Comparison.create (.val .undefined)

/-- `withPromises()`. -/
def Comparison.withPromises (c : Comparison) : Comparison :=
  { c with hasPromises := true }

/-- The predicate closure built inside `compare`: resolve the comparison
value via `toCallable`, then either compare directly or, when the resolved
comparison value is a promise, `.then` the comparison producing a promise
of the boolean. -/
def passesOf (comparison : FnVal) (strict negate : Bool) (value : JSVal) : JSVal :=
  let comparisonValue := comparison.toCallable value
  let compareTo : JSVal → JSVal := fun cv =>
    let isTrue := if strict then strictEq cv value else looseEq cv value
    .boo ((isTrue && !negate) || (!isTrue && negate))
  match comparisonValue with
  | .prom inner => .prom (compareTo (valueFromPromise inner))
  | cv => compareTo cv

/-- `protected compare(comparison, result, strict, negate)`: pushes one
test whose `passes` is `passesOf` and whose `result` is the callable form
of the supplied result. -/
def Comparison.compare (c : Comparison) (comparison result : FnVal)
    (strict negate : Bool) : Comparison :=
  { c with tests := c.tests ++ [{ passes := passesOf comparison strict negate,
                                  result := result.toCallable }] }

/-- `isLike`: `compare(comparison, result, false, false)`. -/
def Comparison.isLike (c : Comparison) (comparison result : FnVal) : Comparison :=
  c.compare comparison result false false

/-- `is`: `compare(comparison, result, true, false)`. -/
def Comparison.is (c : Comparison) (comparison result : FnVal) : Comparison :=
  c.compare comparison result true false

/-- `isNot`: `compare(comparison, result, false, true)` — note the source
passes `strict = false`. -/
def Comparison.isNot (c : Comparison) (comparison result : FnVal) : Comparison :=
  c.compare comparison result false true

/-- `isNotLike`: `compare(comparison, result, false, true)`. -/
def Comparison.isNotLike (c : Comparison) (comparison result : FnVal) : Comparison :=
  c.compare comparison result false true

/-- `elseWhen(passes, result)`: pushes `toCallable(passes)` /
`toCallable(result)` unchanged. -/
def Comparison.elseWhen (c : Comparison) (passes result : FnVal) : Comparison :=
  { c with tests := c.tests ++ [{ passes := passes.toCallable,
                                  result := result.toCallable }] }

/-- `defaultTo(result)`. -/
def Comparison.defaultTo (c : Comparison) (result : FnVal) : Comparison :=
  { c with fallback := result }

/-- `this.value instanceof Function ? this.value() : this.value` (a call
with no arguments passes `undefined` for the parameter). -/
def resolveValue : FnVal → JSVal
  | .val v => v
  | .fn f => f .undefined

/-- `protected verify()`: missing-subject check, then missing-fallback
check, then resolve a callable subject once and normalise the fallback. -/
def Comparison.verify (c : Comparison) :
    Except String (JSVal × (JSVal → JSVal)) :=
  if c.value.isUndef then
    .error "Cannot compare against an undefined value"
  else if c.fallback.isUndef then
    .error "No tests matched and no default result was set"
  else
    .ok (resolveValue c.value, c.fallback.toCallable)

/-- The `for` loop of `againstSync`: first test whose `passes(value)` is
truthy returns its raw `result(value)`; otherwise the fallback. -/
def runTestsSync (tests : List CompTest) (value : JSVal)
    (getFallback : JSVal → JSVal) : JSVal :=
  match tests with
  | [] => getFallback value
  | t :: rest =>
      if truthy (t.passes value) then t.result value
      else runTestsSync rest value getFallback

/-- `protected againstSync()`. -/
def Comparison.againstSync (c : Comparison) : Except String JSVal :=
  match c.verify with
  | .error e => .error e
  | .ok (value, getFallback) => .ok (runTestsSync c.tests value getFallback)

/-- The `for` loop of `againstAsync`: each `passes` result is awaited,
truthiness of the awaited value decides the match, and the matching
`result` (or the fallback) is awaited before returning. -/
def runTestsAsync (tests : List CompTest) (value : JSVal)
    (getFallback : JSVal → JSVal) : JSVal :=
  match tests with
  | [] => valueFromPromise (getFallback value)
  | t :: rest =>
      if truthy (valueFromPromise (t.passes value)) then
        valueFromPromise (t.result value)
      else runTestsAsync rest value getFallback

/-- `protected againstAsync()`: like the sync path, but the subject and
every step are awaited. -/
def Comparison.againstAsync (c : Comparison) : Except String JSVal :=
  match c.verify with
  | .error e => .error e
  | .ok (maybeValue, getFallback) =>
      let value := valueFromPromise maybeValue
      .ok (runTestsAsync c.tests value getFallback)

/-- `against(input)`: assigns `this.value = input`, then dispatches on
`hasPromises`.  Returns the mutated state alongside the outcome. -/
def Comparison.against (c : Comparison) (input : FnVal) :
    Comparison × Except String JSVal :=
  let c' := { c with value := input }
  (c', if c'.hasPromises then c'.againstAsync else c'.againstSync)

/-- `otherwise(fallback)`: assigns `this.fallback = fallback` and calls
`this.against(this.value)`. -/
def Comparison.otherwise (c : Comparison) (fallback : FnVal) :
    Comparison × Except String JSVal :=
  Comparison.against { c with fallback := fallback } c.value

/-- JavaScript default-parameter semantics: the default applies exactly
when the supplied argument is `undefined` (also when the call omits it). -/
def jsDefault (arg : FnVal) (dflt : JSVal) : FnVal :=
  match arg with
  | .val .undefined => .val dflt
  | v => v

/-- `index.ts`: `when(value: any = true)`.  An omitted argument is
`undefined`, so `when()` is `when (.val .undefined)`. -/
def when (value : FnVal) : Comparison :=
  Comparison.when (jsDefault value (.boo true))

/-- `index.ts`: `whenSomething()`. -/
def whenSomething : Comparison :=
  Comparison.whenSomething

/-! Spec-side view for the async-parity refinement claim: "the same
resolved values".  The resolved view of a test/slot replaces every step by
its awaited (settled) value; the async path is compared against the sync
path run on this view. -/

/-- A test with its predicate and result replaced by their awaited
values. -/
def CompTest.resolved (t : CompTest) : CompTest :=
  { passes := fun v => valueFromPromise (t.passes v),
    result := fun v => valueFromPromise (t.result v) }

/-- A value-or-callable slot with its produced value awaited; an unset
slot stays unset. -/
def FnVal.resolved : FnVal → FnVal
  | .val .undefined => .val .undefined
  | .val v => .fn (fun _ => valueFromPromise v)
  | .fn f => .fn (fun x => valueFromPromise (f x))

/-- The chain over the resolved values of its subject, predicates,
results and fallback, to be run on the synchronous path. -/
def Comparison.resolvedView (c : Comparison) : Comparison :=
  { tests := c.tests.map CompTest.resolved,
    value := c.value.resolved,
    fallback := c.fallback.resolved,
    hasPromises := false }

/-! ## Helper lemmas -/

theorem runTestsSync_first (pre post : List CompTest) (t : CompTest) (v : JSVal)
    (fb : JSVal → JSVal)
    (hpre : ∀ u ∈ pre, truthy (u.passes v) = false)
    (ht : truthy (t.passes v) = true) :
    runTestsSync (pre ++ t :: post) v fb = t.result v := by
  induction pre with
  | nil => simp [runTestsSync, ht]
  | cons u rest ih =>
      have hu : truthy (u.passes v) = false := hpre u (List.mem_cons_self u rest)
      have hstep : runTestsSync ((u :: rest) ++ t :: post) v fb
          = runTestsSync (rest ++ t :: post) v fb := by
        simp [runTestsSync, hu]
      rw [hstep]
      exact ih (fun x hx => hpre x (List.mem_cons_of_mem u hx))

theorem runTestsAsync_first (pre post : List CompTest) (t : CompTest) (v : JSVal)
    (fb : JSVal → JSVal)
    (hpre : ∀ u ∈ pre, truthy (valueFromPromise (u.passes v)) = false)
    (ht : truthy (valueFromPromise (t.passes v)) = true) :
    runTestsAsync (pre ++ t :: post) v fb = valueFromPromise (t.result v) := by
  induction pre with
  | nil => simp [runTestsAsync, ht]
  | cons u rest ih =>
      have hu : truthy (valueFromPromise (u.passes v)) = false :=
        hpre u (List.mem_cons_self u rest)
      have hstep : runTestsAsync ((u :: rest) ++ t :: post) v fb
          = runTestsAsync (rest ++ t :: post) v fb := by
        simp [runTestsAsync, hu]
      rw [hstep]
      exact ih (fun x hx => hpre x (List.mem_cons_of_mem u hx))

theorem FnVal.resolved_isUndef (v : FnVal) : v.resolved.isUndef = v.isUndef := by
  cases v with
  | val w => cases w <;> rfl
  | fn f => rfl

theorem FnVal.resolved_toCallable (v : FnVal) (hv : v.isUndef = false) (x : JSVal) :
    v.resolved.toCallable x = valueFromPromise (v.toCallable x) := by
  cases v with
  | val w =>
      cases w
      case undefined => exact absurd hv (by decide)
      all_goals rfl
  | fn f => rfl

theorem FnVal.resolved_resolveValue (v : FnVal) (hv : v.isUndef = false) :
    resolveValue v.resolved = valueFromPromise (resolveValue v) := by
  cases v with
  | val w =>
      cases w
      case undefined => exact absurd hv (by decide)
      all_goals rfl
  | fn f => rfl

theorem runTests_async_eq_sync_resolved (tests : List CompTest) (v : JSVal)
    (fb fb' : JSVal → JSVal) (hfb : ∀ x, fb' x = valueFromPromise (fb x)) :
    runTestsSync (tests.map CompTest.resolved) v fb' = runTestsAsync tests v fb := by
  induction tests with
  | nil => simpa [runTestsSync, runTestsAsync] using hfb v
  | cons t rest ih =>
      cases h : truthy (valueFromPromise (t.passes v)) <;>
        simp [runTestsSync, runTestsAsync, CompTest.resolved, h, ih]

theorem againstAsync_eq_resolvedView (c : Comparison) :
    c.againstAsync = c.resolvedView.againstSync := by
  cases hv : c.value.isUndef with
  | true =>
      simp [Comparison.againstAsync, Comparison.againstSync, Comparison.verify,
        Comparison.resolvedView, FnVal.resolved_isUndef, hv]
  | false =>
      cases hf : c.fallback.isUndef with
      | true =>
          simp [Comparison.againstAsync, Comparison.againstSync, Comparison.verify,
            Comparison.resolvedView, FnVal.resolved_isUndef, hv, hf]
      | false =>
          simp only [Comparison.againstAsync, Comparison.againstSync, Comparison.verify,
            Comparison.resolvedView, FnVal.resolved_isUndef, hv, hf,
            Bool.false_eq_true, if_false]
          rw [FnVal.resolved_resolveValue c.value hv,
            runTests_async_eq_sync_resolved c.tests _ c.fallback.toCallable
              (c.fallback.resolved).toCallable
              (fun x => FnVal.resolved_toCallable c.fallback hf x)]

/-! ## Claim theorems -/

/-- Claim C1: on a chain whose tests are registered in order, if the tests
before `t` all fail on the resolved subject and `t` matches, resolution via
`against` returns `t`'s resolved result — any later test (`post`, which may
contain further matching tests) never contributes; and resolution is
deterministic: chains with identical tests, subject and fallback resolve
identically. -/
theorem spec_c1_first_match_wins :
    (∀ (c : Comparison) (input : FnVal) (pre post : List CompTest) (t : CompTest),
      c.hasPromises = false →
      c.tests = pre ++ t :: post →
      input.isUndef = false →
      c.fallback.isUndef = false →
      (∀ u ∈ pre, truthy (u.passes (resolveValue input)) = false) →
      truthy (t.passes (resolveValue input)) = true →
      (c.against input).2 = .ok (t.result (resolveValue input)))
    ∧ (∀ (c d : Comparison) (input : FnVal),
      c.tests = d.tests → c.value = d.value → c.fallback = d.fallback →
      c.hasPromises = d.hasPromises →
      (c.against input).2 = (d.against input).2) := by
  constructor
  · intro c input pre post t hhp htests hinput hfb hpre ht
    simp only [Comparison.against, Comparison.againstSync, Comparison.verify, hhp,
      Bool.false_eq_true, if_false, hinput, hfb]
    rw [htests]
    rw [runTestsSync_first pre post t (resolveValue input) _ hpre ht]
  · intro c d input h1 h2 h3 h4
    cases c; cases d
    simp only at h1 h2 h3 h4
    subst h1; subst h2; subst h3; subst h4
    rfl

/-- Witness for C1: subject `"b"`, tests `is("a",·)` (fails), `is("b","second")`
(first match), `is("b","third")` (a later test that would also match);
resolution returns `"second"`. -/
theorem spec_c1_witness :
    ((((((when (.val (.str "b"))).is (.val (.str "a")) (.val (.str "first"))).is
        (.val (.str "b")) (.val (.str "second"))).is
        (.val (.str "b")) (.val (.str "third"))).defaultTo
        (.val (.str "fb"))).against (.val (.str "b"))).2 = .ok (.str "second") := by
  have h := spec_c1_first_match_wins.1
    (((((when (.val (.str "b"))).is (.val (.str "a")) (.val (.str "first"))).is
        (.val (.str "b")) (.val (.str "second"))).is
        (.val (.str "b")) (.val (.str "third"))).defaultTo (.val (.str "fb")))
    (.val (.str "b"))
    [{ passes := passesOf (.val (.str "a")) true false,
       result := (FnVal.val (.str "first")).toCallable }]
    [{ passes := passesOf (.val (.str "b")) true false,
       result := (FnVal.val (.str "third")).toCallable }]
    { passes := passesOf (.val (.str "b")) true false,
      result := (FnVal.val (.str "second")).toCallable }
    rfl rfl rfl rfl
    (by
      intro u hu
      simp only [List.mem_singleton] at hu
      subst hu
      decide)
    (by decide)
  exact h

/-- Claim C6: strict tests never coerce (`is(0,·)` misses subject `false`,
`is("1",·)` misses subject `1`) while loose tests follow JavaScript
coercion (`isLike(0,·)` matches `false`, `isLike("1",·)` matches `1`);
in general strict equality only ever holds within one runtime type. -/
theorem spec_c6_strict_vs_loose :
    ((((when (.val (.boo false))).is (.val (.num 0)) (.val (.str "m"))).otherwise
        (.val (.str "f"))).2 = .ok (.str "f"))
    ∧ ((((when (.val (.boo false))).isLike (.val (.num 0)) (.val (.str "m"))).otherwise
        (.val (.str "f"))).2 = .ok (.str "m"))
    ∧ ((((when (.val (.num 1))).is (.val (.str "1")) (.val (.str "m"))).otherwise
        (.val (.str "f"))).2 = .ok (.str "f"))
    ∧ ((((when (.val (.num 1))).isLike (.val (.str "1")) (.val (.str "m"))).otherwise
        (.val (.str "f"))).2 = .ok (.str "m"))
    ∧ (∀ v w : JSVal, strictEq v w = true → jsType v = jsType w) := by
  refine ⟨rfl, rfl, rfl, rfl, ?_⟩
  intro v w h
  cases v <;> cases w <;> simp_all [strictEq, jsType]

/-- Witness for C6's universally quantified part, at two values of the same
runtime type that are strictly equal. -/
theorem spec_c6_witness :
    strictEq (.num 0) (.num 0) = true ∧ jsType (.num 0) = jsType (.num 0) :=
  ⟨rfl, spec_c6_strict_vs_loose.2.2.2.2 (.num 0) (.num 0) rfl⟩

/-- Claim C7: the immediate factory called with its subject argument
omitted (an omitted JavaScript argument is `undefined`) builds the very
same chain as `when(true)`; hence for every test sequence and fallback the
two resolve identically, and resolution on such a chain never raises the
missing-subject error. -/
theorem spec_c7_default_subject :
    (when (.val .undefined) = when (.val (.boo true)))
    ∧ (∀ (ts : List CompTest) (fb : FnVal) (hp : Bool),
        Comparison.mk ts (when (.val .undefined)).value fb hp
          = Comparison.mk ts (when (.val (.boo true))).value fb hp)
    ∧ (∀ (ts : List CompTest) (fb : FnVal),
        ((Comparison.mk ts (when (.val .undefined)).value (.val .undefined) false).otherwise
            fb).2
          ≠ .error "Cannot compare against an undefined value") := by
  refine ⟨rfl, fun ts fb hp => rfl, ?_⟩
  intro ts fb
  simp only [Comparison.otherwise, Comparison.against, Comparison.againstSync,
    Comparison.verify, when, jsDefault, Comparison.when, Comparison.create]
  cases hf : fb.isUndef <;> simp [FnVal.isUndef, hf]

/-- Witness for C7: a concrete no-test chain with a fallback; no
missing-subject error. -/
theorem spec_c7_witness :
    ((Comparison.mk [] (when (.val .undefined)).value (.val .undefined) false).otherwise
        (.val (.num 5))).2
      ≠ .error "Cannot compare against an undefined value" :=
  spec_c7_default_subject.2.2 [] (.val (.num 5))

/-- Claim C10: passing `undefined` explicitly to the immediate factory
hits the JavaScript default parameter, so the subject is the boolean
`true`, the chain equals `when(true)`, and every resolution coincides with
that of the `when(true)` chain. -/
theorem spec_c10_explicit_undefined :
    ((when (.val .undefined)).value = FnVal.val (.boo true))
    ∧ (when (.val .undefined) = when (.val (.boo true)))
    ∧ (∀ (ts : List CompTest) (fb input : FnVal),
        (Comparison.mk ts (when (.val .undefined)).value fb false).against input
          = (Comparison.mk ts (when (.val (.boo true))).value fb false).against
              input) :=
  ⟨rfl, rfl, fun _ _ _ => rfl⟩

/-- Witness for C10: a concrete resolution agreeing between the
explicit-`undefined` chain and the `when(true)` chain. -/
theorem spec_c10_witness :
    (Comparison.mk [] (when (.val .undefined)).value (FnVal.val (.num 7)) false).against
        (.val (.boo true))
      = (Comparison.mk [] (when (.val (.boo true))).value (FnVal.val (.num 7))
          false).against (.val (.boo true)) :=
  spec_c10_explicit_undefined.2.2 [] (FnVal.val (.num 7)) (.val (.boo true))

/-- Claim C2 (code bug evidence): `isNot` in the source calls
`compare(comparison, result, false, true)` — loose negated, identical to
`isNotLike` — so on subject `1` the test `isNot("1", true)` does NOT match
(`"1" == 1` holds, negated) and resolution falls back, where strict
negation (`"1" !== 1`) would match; `is("1", ·)` also fails to match, so
the claimed duality with `is` is violated at this input. -/
theorem spec_c2_isNot_is_loose :
    ((((when (.val (.num 1))).isNot (.val (.str "1")) (.val (.boo true))).otherwise
        (.val (.boo false))).2 = .ok (.boo false))
    ∧ ((((when (.val (.num 1))).is (.val (.str "1")) (.val (.boo true))).otherwise
        (.val (.boo false))).2 = .ok (.boo false))
    ∧ ((((when (.val (.num 1))).isNotLike (.val (.str "1")) (.val (.boo true))).otherwise
        (.val (.boo false))).2 = .ok (.boo false))
    ∧ Comparison.isNot = Comparison.isNotLike :=
  ⟨rfl, rfl, rfl, rfl⟩

/-- Claim C3 (code bug evidence): `verify` raises the missing-fallback
error before any test is scanned, so a deferred chain whose only test
matches the subject still fails when resolved without a fallback — even
though that test's predicate is true on the subject, contradicting the
raised message "No tests matched and no default result was set". -/
theorem spec_c3_missing_fallback_despite_match :
    (((whenSomething.is (.val (.str "a")) (.val (.str "hit"))).against
        (.val (.str "a"))).2
      = .error "No tests matched and no default result was set")
    ∧ truthy (passesOf (.val (.str "a")) true false (.str "a")) = true :=
  ⟨rfl, rfl⟩

/-- Claim C4 counterexample: on a subject-less chain whose test would
match, `otherwise` raises exactly the missing-subject error — the same
error explicit resolution via `against` raises — so no distinguished
terminal-usage error exists. -/
theorem spec_c4_counterexample :
    (((whenSomething.elseWhen (.val (.boo true)) (.val (.num 1))).otherwise
        (.val (.num 0))).2
      = .error "Cannot compare against an undefined value")
    ∧ (((whenSomething.elseWhen (.val (.boo true)) (.val (.num 1))).otherwise
        (.val (.num 0))).2
      = ((whenSomething.elseWhen (.val (.boo true)) (.val (.num 1))).against
          (.val .undefined)).2) :=
  ⟨rfl, rfl⟩

/-- Claim C4 as amended: `otherwise` on a chain whose subject slot is
unset raises the missing-subject usage error, checked eagerly before any
test predicate is evaluated and even if some test would have matched (the
tests and fallback are arbitrary here); it is the same error as explicit
resolution without a subject, not a distinguished one. -/
theorem spec_c4_otherwise_missing_subject (c : Comparison) (fb : FnVal)
    (h : c.value.isUndef = true) :
    (c.otherwise fb).2 = .error "Cannot compare against an undefined value" := by
  cases hp : c.hasPromises <;>
    simp [Comparison.otherwise, Comparison.against, Comparison.againstSync,
      Comparison.againstAsync, Comparison.verify, h, hp]

/-- Witness for C4's amended theorem: a subject-less chain with a test
that would match still errors with the missing-subject message. -/
theorem spec_c4_witness :
    ((whenSomething.elseWhen (.val (.boo true)) (.val (.num 1))).value.isUndef
        = true)
    ∧ (((whenSomething.elseWhen (.val (.boo true)) (.val (.num 1))).otherwise
        (.val (.num 0))).2
      = .error "Cannot compare against an undefined value") :=
  ⟨rfl, spec_c4_otherwise_missing_subject
    (whenSomething.elseWhen (.val (.boo true)) (.val (.num 1))) (.val (.num 0)) rfl⟩

/-- Claim C5 counterexample: a condition resolving to the number `1` — a
truthy non-boolean — does match (the matched result is returned, not the
fallback), refuting "compared for exact identity against the literal
boolean". -/
theorem spec_c5_counterexample :
    (((when (.val (.num 0))).elseWhen (.fn fun _ => .num 1)
        (.val (.str "matched"))).otherwise (.val (.str "fallback"))).2
      = .ok (.str "matched") :=
  rfl

/-- Claim C5 as amended: an `elseWhen` test matches iff the resolved
condition value is truthy (for a boolean condition, exactly when it is
`true`); the subject is never compared against the condition — the
registered test is the unaltered callable pair, and the outcome depends on
the condition's result only through its truthiness. -/
theorem spec_c5_elseWhen_truthy :
    (∀ (c : Comparison) (p r : FnVal),
      (c.elseWhen p r).tests
        = c.tests ++ [{ passes := p.toCallable, result := r.toCallable }])
    ∧ (∀ (v : JSVal) (p r fb : FnVal),
      v ≠ .undefined → fb.isUndef = false →
      (((when (.val v)).elseWhen p r).otherwise fb).2
        = .ok (if truthy (p.toCallable v) then r.toCallable v
               else fb.toCallable v)) := by
  refine ⟨fun c p r => rfl, ?_⟩
  intro v p r fb hv hfb
  have hwhen : when (.val v) = Comparison.create (.val v) := by
    cases v <;> first | rfl | exact absurd rfl hv
  rw [hwhen]
  simp only [Comparison.elseWhen, Comparison.create, Comparison.otherwise,
    Comparison.against, Comparison.againstSync, Comparison.verify]
  have hvu : FnVal.isUndef (.val v) = false := by
    cases v <;> first | rfl | exact absurd rfl hv
  simp [hvu, hfb, runTestsSync, resolveValue]

/-- Witness for C5's amended theorem: boolean condition `true` on subject
`7` returns the registered result. -/
theorem spec_c5_witness :
    ((JSVal.num 7 ≠ JSVal.undefined) ∧ (FnVal.val (.str "fb")).isUndef = false)
    ∧ (((when (.val (.num 7))).elseWhen (.val (.boo true))
        (.val (.str "r"))).otherwise (.val (.str "fb"))).2
      = .ok (if truthy ((FnVal.val (.boo true)).toCallable (.num 7))
             then (FnVal.val (.str "r")).toCallable (.num 7)
             else (FnVal.val (.str "fb")).toCallable (.num 7)) :=
  ⟨⟨by decide, rfl⟩,
    spec_c5_elseWhen_truthy.2 (.num 7) (.val (.boo true)) (.val (.str "r"))
      (.val (.str "fb")) (by decide) rfl⟩

/-- Claim C8: with asyncMode enabled, the asynchronous path returns
exactly what the synchronous path returns on the resolved view of the
chain (same subject, predicates, results and fallback with every pending
completion settled); and the async path awaits tests in registration
order, short-circuiting on the first test whose awaited predicate is
truthy — its awaited result is returned and later tests and the fallback
never contribute. -/
theorem spec_c8_async_parity :
    (∀ c : Comparison, c.againstAsync = c.resolvedView.againstSync)
    ∧ (∀ (c : Comparison) (pre post : List CompTest) (t : CompTest)
        (mv : JSVal) (gfb : JSVal → JSVal),
      c.verify = .ok (mv, gfb) →
      c.tests = pre ++ t :: post →
      (∀ u ∈ pre,
        truthy (valueFromPromise (u.passes (valueFromPromise mv))) = false) →
      truthy (valueFromPromise (t.passes (valueFromPromise mv))) = true →
      c.againstAsync = .ok (valueFromPromise (t.result (valueFromPromise mv)))) := by
  refine ⟨againstAsync_eq_resolvedView, ?_⟩
  intro c pre post t mv gfb hver htests hpre ht
  simp only [Comparison.againstAsync, hver]
  rw [htests]
  rw [runTestsAsync_first pre post t (valueFromPromise mv) gfb hpre ht]

/-- Witness for C8: a deferred async chain with two promise-producing
comparisons resolved against `"y"`; the second test is the first (and
only) match and its result is returned, awaited.  Mirrors the repository's
own "deferred async comparison" test. -/
theorem spec_c8_witness :
    (((((Comparison.when (.val (.str "y"))).withPromises).is
        (.fn fun _ => .prom (.str "x")) (.val (.str "value is x"))).is
        (.fn fun _ => .prom (.str "y")) (.val (.str "value is y"))).defaultTo
        (.val (.str "else"))).againstAsync = .ok (.str "value is y") := by
  have h := spec_c8_async_parity.2
    (((((Comparison.when (.val (.str "y"))).withPromises).is
        (.fn fun _ => .prom (.str "x")) (.val (.str "value is x"))).is
        (.fn fun _ => .prom (.str "y")) (.val (.str "value is y"))).defaultTo
        (.val (.str "else")))
    [{ passes := passesOf (.fn fun _ => .prom (.str "x")) true false,
       result := (FnVal.val (.str "value is x")).toCallable }]
    []
    { passes := passesOf (.fn fun _ => .prom (.str "y")) true false,
      result := (FnVal.val (.str "value is y")).toCallable }
    (.str "y") ((FnVal.val (.str "else")).toCallable)
    rfl rfl
    (by
      intro u hu
      simp only [List.mem_singleton] at hu
      subst hu
      decide)
    (by decide)
  exact h

/-- Claim C9 counterexample: `against` assigns the supplied subject into
the chain's subject slot, so resolving a deferred chain against `"a"`
yields a state different from the original (whose subject slot is unset):
the chain IS mutated. -/
theorem spec_c9_counterexample :
    ((whenSomething.defaultTo (.val (.num 0))).against (.val (.str "a"))).1
      ≠ whenSomething.defaultTo (.val (.num 0)) := by
  intro h
  have hv := congrArg Comparison.value h
  simp only [Comparison.against, Comparison.defaultTo, whenSomething,
    Comparison.whenSomething, Comparison.create] at hv
  exact absurd (congrArg resolveValue hv) (by simp [resolveValue])

/-- Claim C9 as amended: resolving via `against` leaves the registered
test sequence, fallback and async flag unchanged (only the subject slot is
overwritten with the supplied subject); each resolution's outcome equals
that of a freshly built chain with the same tests and fallback, and a
second resolution after a first one behaves exactly like a resolution of
the original chain — registration is never repeated. -/
theorem spec_c9_deferred_reuse (c : Comparison) (input input2 : FnVal) :
    ((c.against input).1.tests = c.tests
      ∧ (c.against input).1.fallback = c.fallback
      ∧ (c.against input).1.hasPromises = c.hasPromises
      ∧ (c.against input).1.value = input)
    ∧ (((c.against input).1.against input2).2 = (c.against input2).2)
    ∧ ((c.against input).2
        = ((Comparison.mk c.tests input c.fallback c.hasPromises).against input).2) :=
  ⟨⟨rfl, rfl, rfl, rfl⟩, rfl, rfl⟩

/-- Witness for C9's amended theorem at a concrete deferred chain and two
subjects. -/
theorem spec_c9_witness :
    (((whenSomething.defaultTo (.val (.num 0))).against (.val (.str "a"))).1.tests
        = (whenSomething.defaultTo (.val (.num 0))).tests)
    ∧ ((((whenSomething.defaultTo (.val (.num 0))).against
          (.val (.str "a"))).1.against (.val (.str "b"))).2
        = ((whenSomething.defaultTo (.val (.num 0))).against (.val (.str "b"))).2) :=
  ⟨(spec_c9_deferred_reuse (whenSomething.defaultTo (.val (.num 0)))
      (.val (.str "a")) (.val (.str "b"))).1.1,
    (spec_c9_deferred_reuse (whenSomething.defaultTo (.val (.num 0)))
      (.val (.str "a")) (.val (.str "b"))).2.1⟩

end WhenOtherwise
